import Mathlib

set_option linter.unusedVariables false

/-!
Shallow embedding of the dependency-detection module (dependencies.py):
the generic pkg-config probe, the Boost library-tree detector, the
fixed-path GTest and GMock detectors, the composite Qt5 detector, the
external program/library wrappers and the resolution entry point.

Subprocess results are modelled as an environment of query functions
returning (returncode, stdout); the filesystem is modelled as the list of
existing paths, directory listings and glob results the detectors consult.
Python exceptions are modelled as an error sum type returned via Except.
-/

/-- The Python exceptions the module can raise.  `invalidArguments` is
`InvalidArguments` from the interpreter (the InvalidConfiguration family),
`dependencyError` is `DependencyException` (the NotFound family),
`runtimeError` is `RuntimeError` (tool faults), and `typeError`,
`attributeError`, `indexError` model the corresponding built-in Python
errors raised by bad calls. -/
inductive PyErr where
  | invalidArguments (msg : String)
  | dependencyError (msg : String)
  | runtimeError (msg : String)
  | typeError (msg : String)
  | attributeError (msg : String)
  | indexError (msg : String)
  deriving Repr, DecidableEq

/-- Worker for Python `str.split()`: walk the characters, flushing the
accumulated (reversed) token at each whitespace run. -/
def wsSplit : List Char → List Char → List String
  | [], acc => if acc = [] then [] else [String.mk acc.reverse]
  | c :: rest, acc =>
      if c.isWhitespace then
        if acc = [] then wsSplit rest []
        else String.mk acc.reverse :: wsSplit rest []
      else wsSplit rest (c :: acc)

/-- Python `str.split()` with no argument: tokenize on whitespace runs,
dropping empty tokens. -/
def pySplit (s : String) : List String := wsSplit s.data []

/-- Python `pre + rest` prefix test on characters. -/
def pyStartsWith (s pre : String) : Bool := pre.data.isPrefixOf s.data

/-- Python `s.endswith(post)` suffix test on characters. -/
def pyEndsWith (s post : String) : Bool := post.data.isSuffixOf s.data

/-- Does `needle` occur as a contiguous run inside `hay`? -/
def containsSub (needle : List Char) : List Char → Bool
  | [] => needle.isPrefixOf []
  | c :: t => needle.isPrefixOf (c :: t) || containsSub needle t

/-- Python `sub in s` substring test. -/
def strContains (s sub : String) : Bool := containsSub sub.data s.data

/-- Python `s[1:-1]`: drop the first and the last character. -/
def pySlice1m1 (s : String) : String := String.mk (s.data.drop 1).dropLast

/-- Python `s.strip()`: drop whitespace from both ends. -/
def pyStrip (s : String) : String :=
  String.mk (((s.data.dropWhile Char.isWhitespace).reverse.dropWhile
    Char.isWhitespace).reverse)

/-- Python `s.replace(a, b)` for one-character arguments, as used by the
version normalisation `ver.replace('_', '.')`. -/
def pyReplaceChar (s : String) (a b : Char) : String :=
  String.mk (s.data.map (fun c => if c = a then b else c))

/-- `os.path.join` for a directory and a relative name. -/
def pathJoin (a b : String) : String := a ++ "/" ++ b

/-- The filesystem as the list of paths that exist (`os.path.exists`). -/
def pathExists (fs : List String) (p : String) : Bool := fs.contains p

/-- Results of the pkg-config subprocess invocations: each query returns
(returncode, stdout). `pcVersion` is `pkg-config --version`, the rest take
the package name. -/
structure PkgEnv where
  pcVersion : Nat × String
  modversion : String → Nat × String
  cflags : String → Nat × String
  libs : String → Nat × String

/-- The state a successfully constructed `PkgConfigDependency` holds. -/
structure PkgConfigState where
  is_found : Bool
  modversion : String
  cflags : List String
  libs : List String
  deriving Repr, DecidableEq

def PkgConfigState.found (s : PkgConfigState) : Bool := s.is_found

def PkgConfigState.get_modversion (s : PkgConfigState) : String := s.modversion

def PkgConfigState.get_compile_flags (s : PkgConfigState) : List String := s.cflags

def PkgConfigState.get_link_flags (s : PkgConfigState) : List String := s.libs

/-- `get_sources` is inherited from the `Dependency` base class: `[]`. -/
def PkgConfigState.get_sources (s : PkgConfigState) : List String := []

/-- `PkgConfigDependency.check_pkgconfig`: run `pkg-config --version`;
nonzero exit is a fatal RuntimeError. -/
def check_pkgconfig (env : PkgEnv) : Except PyErr Unit :=
  if env.pcVersion.1 ≠ 0 then
    .error (.runtimeError "Pkg-config executable not found.")
  else .ok ()

/-- `PkgConfigDependency.__init__(name, required)`.  `pkgconfig_found` is
the process-wide class flag: when it is unset the constructor first checks
for pkg-config itself.  Then `--modversion` decides found/not-found
(fatal only when `required`); on success `--cflags` and `--libs` are
queried, any failure there being a fatal RuntimeError. -/
def pkgConfigInit (env : PkgEnv) (pkgconfig_found : Bool) (name : String)
    (required : Bool) : Except PyErr PkgConfigState :=
  if pkgconfig_found = false ∧ env.pcVersion.1 ≠ 0 then
    .error (.runtimeError "Pkg-config executable not found.")
  else if (env.modversion name).1 ≠ 0 then
    if required then
      .error (.dependencyError ("Required dependency " ++ name ++ " not found."))
    else
      .ok { is_found := false, modversion := "none", cflags := [], libs := [] }
  else if (env.cflags name).1 ≠ 0 then
    .error (.runtimeError ("Could not generate cflags for " ++ name ++ "."))
  else if (env.libs name).1 ≠ 0 then
    .error (.runtimeError ("Could not generate libs for " ++ name ++ "."))
  else
    .ok { is_found := true, modversion := pyStrip (env.modversion name).2,
          cflags := pySplit (env.cflags name).2, libs := pySplit (env.libs name).2 }

/-- `ExternalProgram`: a bare tool name plus an optional resolved path. -/
structure ExternalProgram where
  name : String
  fullpath : Option String
  deriving Repr, DecidableEq

def ExternalProgram.found (p : ExternalProgram) : Bool := p.fullpath.isSome

def ExternalProgram.get_name (p : ExternalProgram) : String := p.name

/-- `ExternalLibrary`: a library name plus an optional full path. -/
structure ExternalLibrary where
  name : String
  fullpath : Option String
  deriving Repr, DecidableEq

def ExternalLibrary.found (l : ExternalLibrary) : Bool := l.fullpath.isSome

def ExternalLibrary.get_name (l : ExternalLibrary) : String := l.name

/-- `ExternalLibrary.get_link_flags`: `[self.fullpath]` when found,
else `[]` (when found, `fullpath` is some path, so the default of `getD`
is never used). -/
def ExternalLibrary.get_link_flags (l : ExternalLibrary) : List String :=
  if l.found then [l.fullpath.getD ""] else []

def ExternalLibrary.get_compile_flags (l : ExternalLibrary) : List String := []

def ExternalLibrary.get_sources (l : ExternalLibrary) : List String := []

/-- The fields `GTestDependency.__init__` sets. -/
structure GTestDep where
  include_dir : String
  src_include_dir : String
  src_dir : String
  all_src : String
  main_src : String
  deriving Repr, DecidableEq

def gtestInit : GTestDep :=
  { include_dir := "/usr/include",
    src_include_dir := "/usr/src/gtest",
    src_dir := "/usr/src/gtest/src",
    all_src := pathJoin "/usr/src/gtest/src" "gtest-all.cc",
    main_src := pathJoin "/usr/src/gtest/src" "gtest_main.cc" }

def GTestDep.found (d : GTestDep) (fs : List String) : Bool :=
  pathExists fs d.all_src

def GTestDep.get_compile_flags (d : GTestDep) : List String :=
  (if d.include_dir ≠ "/usr/include" then ["-I" ++ d.include_dir] else [])
    ++ ["-I" ++ d.src_include_dir]

def GTestDep.get_link_flags (d : GTestDep) : List String := ["-lpthread"]

def GTestDep.get_version (d : GTestDep) : String := "1.something_maybe"

def GTestDep.get_sources (d : GTestDep) : List String := [d.all_src, d.main_src]

/-- The fields `GMockDependency.__init__` sets. -/
structure GMockDep where
  libdir : String
  libname : String
  deriving Repr, DecidableEq

def gmockInit : GMockDep := { libdir := "/usr/lib", libname := "libgmock.so" }

def GMockDep.found (d : GMockDep) (fs : List String) : Bool :=
  pathExists fs (pathJoin d.libdir d.libname)

def GMockDep.get_compile_flags (d : GMockDep) : List String := []

def GMockDep.get_sources (d : GMockDep) : List String := []

def GMockDep.get_link_flags (d : GMockDep) : List String := ["-lgmock"]

def GMockDep.get_version (d : GMockDep) : String := "1.something_maybe"

/-- An element of the list passed as the Boost `modules` keyword: either a
Python string or some non-string value. -/
inductive ModulesElem where
  | str (s : String)
  | nonStr
  deriving Repr, DecidableEq

/-- The value of the Boost `modules` keyword: a bare string or a list. -/
inductive ModulesArg where
  | str (s : String)
  | list (elems : List ModulesElem)
  deriving Repr, DecidableEq

/-- The loop in `BoostDependency.get_requested` over a list candidate:
each element must be a string, otherwise InvalidArguments. -/
def checkModules : List ModulesElem → Except PyErr (List String)
  | [] => .ok []
  | .str s :: rest =>
      match checkModules rest with
      | .error e => .error e
      | .ok r => .ok (s :: r)
  | .nonStr :: _ =>
      .error (.invalidArguments "Boost module argument is not a string.")

/-- `BoostDependency.get_requested(kwargs)`: missing keyword is
InvalidArguments; a bare string becomes a one-element list; a list is
checked elementwise. -/
def get_requested : Option ModulesArg → Except PyErr (List String)
  | none =>
      .error (.invalidArguments "Boost dependency must specify \"modules\" keyword.")
  | some (.str s) => .ok [s]
  | some (.list es) => checkModules es

/-- What the Boost detector reads from the machine: the lines of
`/usr/include/boost/version.hpp`, the entries of `/usr/include/boost`
(name, is-directory flag), and the file basenames under `/usr/lib`. -/
structure BoostEnv where
  versionHeaderLines : List String
  incEntries : List (String × Bool)
  libFiles : List String
  deriving Repr, DecidableEq

/-- `BoostDependency.detect_version`: first line that starts with
`#define` and mentions `BOOST_LIB_VERSION` gives the version: last
whitespace token, quotes stripped (`[1:-1]`), underscores replaced by
dots.  No such line gives `None`. -/
def detect_version : List String → Option String
  | [] => none
  | line :: rest =>
      if pyStartsWith line "#define" && strContains line "BOOST_LIB_VERSION" then
        some (pyReplaceChar (pySlice1m1 ((pySplit line).getLastD "")) '_' '.')
      else detect_version rest

/-- `BoostDependency.detect_src_modules`: the names of the first-level
subdirectories of the header root. -/
def detect_src_modules (entries : List (String × Bool)) : List String :=
  (entries.filter (fun e => e.2)).map (fun e => e.1)

/-- Python `s.split(sep, 1)[-1]` for `sep = "_"`: everything after the
first underscore, or the whole string when there is none. -/
def splitUnderscoreTail (s : String) : String :=
  if s.data.contains '_' then
    String.mk ((s.data.dropWhile (fun c => c ≠ '_')).drop 1)
  else s

/-- Python `s.split(".")[0]`: the prefix up to the first dot. -/
def stemBeforeDot (s : String) : String :=
  String.mk (s.data.takeWhile (fun c => c ≠ '.'))

/-- `BoostDependency.detect_lib_modules`: glob `libboost_*.so` over the
library dir, skip `-mt.so` variants, and take the module name as what
follows the first underscore of the stem before the first dot. -/
def detect_lib_modules (files : List String) : List String :=
  (files.filter (fun f =>
      pyStartsWith f "libboost_" && pyEndsWith f ".so" && !(pyEndsWith f "-mt.so"))).map
    (fun f => splitUnderscoreTail (stemBeforeDot f))

/-- The state a constructed `BoostDependency` holds.  `src_modules` and
`lib_modules` are dict-of-True in Python; only key membership matters, so
they are kept as key lists. -/
structure BoostState where
  version : Option String
  src_modules : List String
  lib_modules : List String
  requested_modules : List String
  deriving Repr, DecidableEq

def BoostState.found (b : BoostState) : Bool := b.version.isSome

def BoostState.get_version (b : BoostState) : Option String := b.version

def BoostState.get_compile_flags (b : BoostState) : List String := []

def BoostState.get_sources (b : BoostState) : List String := []

/-- `BoostDependency.get_link_flags`: one `-lboost_<module>` per requested
module that is also a discovered library module, in request order. -/
def BoostState.get_link_flags (b : BoostState) : List String :=
  b.requested_modules.filterMap (fun m =>
    if b.lib_modules.contains m then some ("-lboost_" ++ m) else none)

/-- `BoostDependency.validate_requested`: every requested module must be a
discovered header module, else InvalidArguments (raised at the first
miss). -/
def validate_requested : List String → List String → Except PyErr Unit
  | [], _ => .ok ()
  | m :: rest, src =>
      if src.contains m then validate_requested rest src
      else
        .error (.invalidArguments ("Requested Boost module \"" ++ m ++ "\" not found."))

/-- `BoostDependency.__init__(kwargs)`: detect the version (Python runs
this first; it is pure here), read the requested modules, and only when a
version was found scan the header and library modules and validate the
request. -/
def boostInit (env : BoostEnv) (arg : Option ModulesArg) : Except PyErr BoostState :=
  match get_requested arg with
  | .error e => .error e
  | .ok requested =>
      match detect_version env.versionHeaderLines with
      | none =>
          .ok { version := none, src_modules := [], lib_modules := [],
                requested_modules := requested }
      | some v =>
          match validate_requested requested (detect_src_modules env.incEntries) with
          | .error e => .error e
          | .ok _ =>
              .ok { version := some v,
                    src_modules := detect_src_modules env.incEntries,
                    lib_modules := detect_lib_modules env.libFiles,
                    requested_modules := requested }

/-- `find_external_dependency` specialised to the registered name
`"boost"`: construct the detector, then raise DependencyException when
`required` and not found. -/
def find_boost (env : BoostEnv) (arg : Option ModulesArg) (required : Bool) :
    Except PyErr BoostState :=
  match boostInit env arg with
  | .error e => .error e
  | .ok dep =>
      if required && !dep.found then
        .error (.dependencyError "Dependency \"boost\" not found")
      else .ok dep

/-- A Python value passed as a positional argument. -/
inductive PyVal where
  | str (s : String)
  | bool (b : Bool)
  deriving Repr, DecidableEq

/-- A Python-level call of `PkgConfigDependency(...)`: the constructor
signature is `__init__(self, name, required)` with no defaults, so any
argument list other than a string and a bool is a TypeError raised before
the constructor body runs. -/
def callPkgConfigInit (env : PkgEnv) (pkgconfig_found : Bool)
    (args : List PyVal) : Except PyErr PkgConfigState :=
  match args with
  | [.str name, .bool required] => pkgConfigInit env pkgconfig_found name required
  | _ =>
      .error (.typeError "PkgConfigDependency.__init__() missing 1 required positional argument: required")

/-- The loop in `Qt5Dependency.__init__`: for each module name build
`PkgConfigDependency('Qt5' + module)` — a call with one positional
argument. -/
def qt5BuildModules (env : PkgEnv) (pkgconfig_found : Bool) :
    List String → Except PyErr (List PkgConfigState)
  | [] => .ok []
  | m :: rest =>
      match callPkgConfigInit env pkgconfig_found [.str ("Qt5" ++ m)] with
      | .error e => .error e
      | .ok d =>
          match qt5BuildModules env pkgconfig_found rest with
          | .error e => .error e
          | .ok ds => .ok (d :: ds)

/-- The state a constructed `Qt5Dependency` would hold. -/
structure Qt5State where
  root : String
  modules : List PkgConfigState
  moc : ExternalProgram
  uic : ExternalProgram
  deriving Repr, DecidableEq

/-- `Qt5Dependency.__init__(kwargs)`: build one generic probe per module
name, raise DependencyException when no modules were given, then record
the `moc` and `uic` helper programs (constructed with no resolved
path). -/
def qt5Init (env : PkgEnv) (pkgconfig_found : Bool) (moduleNames : List String) :
    Except PyErr Qt5State :=
  match qt5BuildModules env pkgconfig_found moduleNames with
  | .error e => .error e
  | .ok mods =>
      if mods.length = 0 then
        .error (.dependencyError "No Qt5 modules specified.")
      else
        .ok { root := "/usr", modules := mods,
              moc := { name := "moc", fullpath := none },
              uic := { name := "uic", fullpath := none } }

/-- The method names an instance of `PkgConfigDependency` exposes: its own
definitions plus those inherited from `Dependency`. -/
def pkgConfigMethodNames : List String :=
  ["found", "get_compile_flags", "get_link_flags", "get_sources",
   "get_modversion", "check_pkgconfig"]

/-- `Qt5Dependency.get_version`: `self.modules[0].get_version()`.
Indexing an empty list is an IndexError; otherwise the attribute lookup of
`get_version` on the probe decides: were it present it would return the
probe's version, but `PkgConfigDependency` only defines `get_modversion`,
so the lookup fails with AttributeError. -/
def qt5GetVersion (modules : List PkgConfigState) : Except PyErr String :=
  match modules with
  | [] => .error (.indexError "list index out of range")
  | m :: _ =>
      if pkgConfigMethodNames.contains "get_version" then .ok m.modversion
      else
        .error (.attributeError "PkgConfigDependency object has no attribute get_version")

/-- `Qt5Dependency.found`: `moc` and `uic` must both resolve and every
sub-probe must have found its package. -/
def qt5Found (q : Qt5State) : Bool :=
  q.moc.found && q.uic.found && q.modules.all (fun m => m.found)

/-- Observer: does a constructor outcome consist in raising
`InvalidArguments`? -/
def raisesInvalidArguments {α : Type} : Except PyErr α → Bool
  | .error (.invalidArguments _) => true
  | _ => false

/-! ## Helper lemmas -/

/-- `filterMap` of an everywhere-`none` function is empty. -/
theorem filterMap_none_of_all {α β : Type} (l : List α) (f : α → Option β)
    (hf : ∀ a, f a = none) : l.filterMap f = [] := by
  induction l with
  | nil => rfl
  | cons a t ih => simp [List.filterMap_cons, hf, ih]

/-- A generic probe that constructed successfully but is not found holds
exactly the not-found state. -/
theorem pkgConfig_ok_found_false {env : PkgEnv} {pc : Bool} {name : String}
    {required : Bool} {st : PkgConfigState}
    (h : pkgConfigInit env pc name required = .ok st)
    (hf : st.found = false) :
    st = { is_found := false, modversion := "none", cflags := [], libs := [] } := by
  unfold pkgConfigInit at h
  split at h
  · exact absurd h (by simp)
  · split at h
    · split at h
      · exact absurd h (by simp)
      · simp only [Except.ok.injEq] at h
        exact h.symm
    · split at h
      · exact absurd h (by simp)
      · split at h
        · exact absurd h (by simp)
        · simp only [Except.ok.injEq] at h
          rw [← h] at hf
          simp [PkgConfigState.found] at hf

/-- A Boost detector that constructed successfully but is not found holds
no version and empty module scans. -/
theorem boost_ok_found_false {env : BoostEnv} {arg : Option ModulesArg}
    {st : BoostState} (h : boostInit env arg = .ok st)
    (hf : st.found = false) :
    st.version = none ∧ st.src_modules = [] ∧ st.lib_modules = [] := by
  unfold boostInit at h
  split at h
  · exact absurd h (by simp)
  · split at h
    · simp only [Except.ok.injEq] at h
      rw [← h]
      exact ⟨rfl, rfl, rfl⟩
    · split at h
      · exact absurd h (by simp)
      · simp only [Except.ok.injEq] at h
        rw [← h] at hf
        simp [BoostState.found] at hf

/-- Link flags are empty whenever no library modules were discovered. -/
theorem boost_link_flags_nil {b : BoostState} (h : b.lib_modules = []) :
    b.get_link_flags = [] := by
  unfold BoostState.get_link_flags
  rw [h]
  exact filterMap_none_of_all _ _ (fun m => by simp)

/-- When no header line matches the version directive, detection yields
`none`. -/
theorem detect_version_eq_none {lines : List String}
    (h : ∀ line ∈ lines,
      (pyStartsWith line "#define" && strContains line "BOOST_LIB_VERSION") = false) :
    detect_version lines = none := by
  induction lines with
  | nil => rfl
  | cons l rest ih =>
      have hl := h l (List.mem_cons_self l rest)
      unfold detect_version
      split
      · rename_i hcond
        rw [hl] at hcond
        exact absurd hcond (by decide)
      · exact ih (fun x hx => h x (List.mem_cons_of_mem l hx))

/-- If some requested module is missing from the discovered header
modules, validation raises `InvalidArguments`. -/
theorem validate_requested_missing {reqs src : List String} {m : String}
    (hm : m ∈ reqs) (hnot : src.contains m = false) :
    ∃ msg, validate_requested reqs src = .error (.invalidArguments msg) := by
  induction reqs with
  | nil => cases hm
  | cons r rest ih =>
      by_cases hr : src.contains r = true
      · have hm2 : m ∈ rest := by
          rcases List.mem_cons.mp hm with h | h
          · rw [h] at hnot
            rw [hnot] at hr
            cases hr
          · exact h
        obtain ⟨msg, hmsg⟩ := ih hm2
        refine ⟨msg, ?_⟩
        simp only [validate_requested]
        rw [if_pos hr]
        exact hmsg
      · refine ⟨"Requested Boost module \"" ++ r ++ "\" not found.", ?_⟩
        simp only [validate_requested]
        rw [if_neg hr]

/-! ## Claim theorems -/

/-- Claim C1 (corrected), counterexample: the fixed-path GTest detector
with an empty filesystem is not found, yet its link flags, compile flags
and sources are all nonempty, and the GMock detector likewise reports the
static link flag while not found. -/
theorem gtest_gmock_leak_counterexample :
    gtestInit.found [] = false ∧
    GTestDep.get_link_flags gtestInit = ["-lpthread"] ∧
    GTestDep.get_compile_flags gtestInit = ["-I/usr/src/gtest"] ∧
    GTestDep.get_sources gtestInit =
      ["/usr/src/gtest/src/gtest-all.cc", "/usr/src/gtest/src/gtest_main.cc"] ∧
    gmockInit.found [] = false ∧
    GMockDep.get_link_flags gmockInit = ["-lgmock"] := by
  refine ⟨rfl, rfl, ?_, rfl, rfl, rfl⟩
  simp [GTestDep.get_compile_flags, gtestInit]

/-- Claim C1 (amended): for the generic pkg-config probe, the
library-tree/Boost detector and the external-library wrapper,
`found() = false` implies empty compile flags, link flags and sources;
the fixed-path GTest and GMock detectors instead always report their
static link flags, whatever the filesystem. -/
theorem found_false_no_leakage_amended :
    (∀ (env : PkgEnv) (pc : Bool) (name : String) (required : Bool)
        (st : PkgConfigState),
      pkgConfigInit env pc name required = .ok st → st.found = false →
      st.get_compile_flags = [] ∧ st.get_link_flags = [] ∧ st.get_sources = []) ∧
    (∀ (env : BoostEnv) (arg : Option ModulesArg) (st : BoostState),
      boostInit env arg = .ok st → st.found = false →
      st.get_compile_flags = [] ∧ st.get_link_flags = [] ∧ st.get_sources = []) ∧
    (∀ l : ExternalLibrary, l.found = false →
      l.get_compile_flags = [] ∧ l.get_link_flags = [] ∧ l.get_sources = []) ∧
    (∀ fs : List String,
      GTestDep.get_link_flags gtestInit = ["-lpthread"] ∧
      GMockDep.get_link_flags gmockInit = ["-lgmock"]) := by
  refine ⟨?_, ?_, ?_, fun fs => ⟨rfl, rfl⟩⟩
  · intro env pc name required st h hf
    rw [pkgConfig_ok_found_false h hf]
    exact ⟨rfl, rfl, rfl⟩
  · intro env arg st h hf
    obtain ⟨hv, hs, hl⟩ := boost_ok_found_false h hf
    exact ⟨rfl, boost_link_flags_nil hl, rfl⟩
  · intro l hf
    refine ⟨rfl, ?_, rfl⟩
    simp [ExternalLibrary.get_link_flags, hf]

/-- Claim C1, witness: concrete instances of the amended statement — a
non-found external library and a non-found generic probe both expose only
empty sequences. -/
theorem found_false_no_leakage_amended_witness :
    ExternalLibrary.found ⟨"m", none⟩ = false ∧
    (ExternalLibrary.get_compile_flags ⟨"m", none⟩ = [] ∧
      ExternalLibrary.get_link_flags ⟨"m", none⟩ = [] ∧
      ExternalLibrary.get_sources ⟨"m", none⟩ = []) ∧
    pkgConfigInit ⟨(0, ""), fun _ => (1, ""), fun _ => (0, ""), fun _ => (0, "")⟩
        true "z" false = .ok ⟨false, "none", [], []⟩ ∧
    (PkgConfigState.get_compile_flags ⟨false, "none", [], []⟩ = [] ∧
      PkgConfigState.get_link_flags ⟨false, "none", [], []⟩ = [] ∧
      PkgConfigState.get_sources ⟨false, "none", [], []⟩ = []) :=
  ⟨rfl,
   found_false_no_leakage_amended.2.2.1 ⟨"m", none⟩ rfl,
   rfl,
   found_false_no_leakage_amended.1
     ⟨(0, ""), fun _ => (1, ""), fun _ => (0, ""), fun _ => (0, "")⟩
     true "z" false ⟨false, "none", [], []⟩ rfl rfl⟩

/-- Claim C9: passing the Boost `modules` option as the bare string `x`
and as the one-element list `[x]` produce identical detectors, both at
construction and through the resolution entry point for every `required`
flag. -/
theorem boost_string_vs_singleton (env : BoostEnv) (x : String) (required : Bool) :
    boostInit env (some (.str x)) = boostInit env (some (.list [.str x])) ∧
    find_boost env (some (.str x)) required =
      find_boost env (some (.list [.str x])) required :=
  ⟨rfl, rfl⟩

/-- Claim C10: the library scan excludes `libboost_thread-mt.so`, maps
`libboost_thread.so` to module `thread`, and a Boost detector that
requested `thread` with that library discovered links with
`-lboost_thread`. -/
theorem boost_lib_scan_thread :
    detect_lib_modules ["libboost_thread-mt.so"] = [] ∧
    detect_lib_modules ["libboost_thread.so"] = ["thread"] ∧
    boostInit ⟨["#define BOOST_LIB_VERSION \"1_53\""], [("thread", true)],
        ["libboost_thread-mt.so", "libboost_thread.so"]⟩
      (some (.str "thread")) =
      .ok ⟨some "1.53", ["thread"], ["thread"], ["thread"]⟩ ∧
    BoostState.get_link_flags ⟨some "1.53", ["thread"], ["thread"], ["thread"]⟩ =
      ["-lboost_thread"] :=
  ⟨rfl, rfl, rfl, rfl⟩

/-- Claim C2 (corrected), counterexample: with an empty header tree the
version is not detected, so requesting the unknown module `nosuch` raises
nothing — even through the entry point with `required = false` — and the
detector silently reports not-found although `nosuch` is not in the
(empty) discovered header-module set. -/
theorem boost_miss_silent_counterexample :
    find_boost ⟨[], [], []⟩ (some (.str "nosuch")) false =
      .ok ⟨none, [], [], ["nosuch"]⟩ ∧
    BoostState.found ⟨none, [], [], ["nosuch"]⟩ = false ∧
    (detect_src_modules ([] : List (String × Bool))).contains "nosuch" = false :=
  ⟨rfl, rfl, rfl⟩

/-- Claim C2 (amended): provided version detection succeeded, requesting
a module absent from the discovered header-module set raises
`InvalidArguments` from construction and through the entry point, for
every value of `required`; when version detection fails the validation is
skipped. -/
theorem boost_validation_after_version_amended
    (env : BoostEnv) (arg : Option ModulesArg) (reqs : List String)
    (required : Bool) (m : String)
    (hreq : get_requested arg = .ok reqs)
    (hver : (detect_version env.versionHeaderLines).isSome = true)
    (hm : m ∈ reqs)
    (hmiss : (detect_src_modules env.incEntries).contains m = false) :
    (∃ msg, boostInit env arg = .error (.invalidArguments msg)) ∧
    (∃ msg, find_boost env arg required = .error (.invalidArguments msg)) := by
  obtain ⟨v, hv⟩ := Option.isSome_iff_exists.mp hver
  obtain ⟨msg, hmsg⟩ := validate_requested_missing hm hmiss
  have hinit : boostInit env arg = .error (.invalidArguments msg) := by
    simp only [boostInit, hreq, hv, hmsg]
  refine ⟨⟨msg, hinit⟩, ⟨msg, ?_⟩⟩
  simp only [find_boost, hinit]

/-- Claim C2, witness: a header tree exposing only `system` with a valid
version header makes the request for `nosuch` fail hard even with
`required = false`. -/
theorem boost_validation_after_version_amended_witness :
    get_requested (some (.str "nosuch")) = .ok ["nosuch"] ∧
    (detect_version ["#define BOOST_LIB_VERSION \"1_53\""]).isSome = true ∧
    (∃ msg, find_boost ⟨["#define BOOST_LIB_VERSION \"1_53\""], [("system", true)], []⟩
        (some (.str "nosuch")) false = .error (.invalidArguments msg)) :=
  ⟨rfl, rfl,
   (boost_validation_after_version_amended
      ⟨["#define BOOST_LIB_VERSION \"1_53\""], [("system", true)], []⟩
      (some (.str "nosuch")) ["nosuch"] false "nosuch" rfl rfl
      (List.mem_singleton.mpr rfl) rfl).2⟩

/-- Claim C3 (corrected), counterexample: an empty module list makes the
Qt5 constructor raise `DependencyException` (the NotFound exception type),
not an `InvalidArguments` error. -/
theorem qt5_empty_errtype_counterexample :
    qt5Init ⟨(0, ""), fun _ => (0, ""), fun _ => (0, ""), fun _ => (0, "")⟩ true [] =
      .error (.dependencyError "No Qt5 modules specified.") ∧
    raisesInvalidArguments
      (qt5Init ⟨(0, ""), fun _ => (0, ""), fun _ => (0, ""), fun _ => (0, "")⟩ true []) =
      false :=
  ⟨rfl, rfl⟩

/-- Claim C3 (amended): an empty module list always makes the Qt5
constructor raise a `DependencyException` saying no modules were
specified, and the outcome is the same for every subprocess environment
and tool-verified flag — no pkg-config query is consulted. -/
theorem qt5_empty_modules_amended (env : PkgEnv) (pc : Bool) :
    qt5Init env pc [] = .error (.dependencyError "No Qt5 modules specified.") := rfl

/-- Claim C4 (code bug): `Qt5Dependency.get_version` calls `get_version()`
on its first sub-probe, but the generic probe only defines
`get_modversion`, so the call fails with `AttributeError` instead of
returning the first sub-module version. -/
theorem qt5_get_version_missing_method :
    pkgConfigMethodNames.contains "get_version" = false ∧
    qt5GetVersion [⟨true, "5.2.1", [], []⟩] =
      .error (.attributeError "PkgConfigDependency object has no attribute get_version") :=
  ⟨rfl, rfl⟩

/-- Claim C5: any nonempty module list makes the Qt5 constructor pass a
single positional argument to the generic probe, whose constructor
requires both a name and a required flag, so construction raises
`TypeError` whatever the environment. -/
theorem qt5_nonempty_typeerror (env : PkgEnv) (pc : Bool) (ms : List String)
    (h : ms ≠ []) :
    qt5Init env pc ms =
      .error (.typeError "PkgConfigDependency.__init__() missing 1 required positional argument: required") := by
  cases ms with
  | nil => exact absurd rfl h
  | cons m rest => rfl

/-- Claim C5, witness: the single module `Core` already triggers the
`TypeError`. -/
theorem qt5_nonempty_typeerror_witness :
    (["Core"] : List String) ≠ [] ∧
    qt5Init ⟨(0, ""), fun _ => (0, "5.2.1"), fun _ => (0, ""), fun _ => (0, "")⟩
        true ["Core"] =
      .error (.typeError "PkgConfigDependency.__init__() missing 1 required positional argument: required") :=
  ⟨by decide,
   qt5_nonempty_typeerror
     ⟨(0, ""), fun _ => (0, "5.2.1"), fun _ => (0, ""), fun _ => (0, "")⟩
     true ["Core"] (by decide)⟩

/-- Claim C6: when the version query exits nonzero, a required dependency
raises `DependencyException`, while an optional one constructs with
`found() = false`, version sentinel `none`, and empty flag lists. -/
theorem pkgconfig_notfound_required_vs_optional
    (env : PkgEnv) (pc : Bool) (name : String)
    (hpc : pc = true ∨ env.pcVersion.1 = 0)
    (h : (env.modversion name).1 ≠ 0) :
    pkgConfigInit env pc name true =
      .error (.dependencyError ("Required dependency " ++ name ++ " not found.")) ∧
    pkgConfigInit env pc name false = .ok ⟨false, "none", [], []⟩ ∧
    PkgConfigState.found ⟨false, "none", [], []⟩ = false ∧
    PkgConfigState.get_compile_flags ⟨false, "none", [], []⟩ = [] ∧
    PkgConfigState.get_link_flags ⟨false, "none", [], []⟩ = [] ∧
    PkgConfigState.get_modversion ⟨false, "none", [], []⟩ = "none" := by
  have hcond : ¬(pc = false ∧ env.pcVersion.1 ≠ 0) := by
    rcases hpc with h1 | h1
    · rw [h1]; simp
    · simp [h1]
  refine ⟨?_, ?_, rfl, rfl, rfl, rfl⟩
  · unfold pkgConfigInit
    rw [if_neg hcond, if_pos h]
    rfl
  · unfold pkgConfigInit
    rw [if_neg hcond, if_pos h]
    rfl

/-- Claim C6, witness: a concrete environment whose version query exits
with code 1. -/
theorem pkgconfig_notfound_required_vs_optional_witness :
    pkgConfigInit ⟨(0, ""), fun _ => (1, ""), fun _ => (0, ""), fun _ => (0, "")⟩
        true "foo" true =
      .error (.dependencyError "Required dependency foo not found.") ∧
    pkgConfigInit ⟨(0, ""), fun _ => (1, ""), fun _ => (0, ""), fun _ => (0, "")⟩
        true "foo" false = .ok ⟨false, "none", [], []⟩ :=
  ⟨(pkgconfig_notfound_required_vs_optional
      ⟨(0, ""), fun _ => (1, ""), fun _ => (0, ""), fun _ => (0, "")⟩
      true "foo" (Or.inl rfl) (by decide)).1,
   (pkgconfig_notfound_required_vs_optional
      ⟨(0, ""), fun _ => (1, ""), fun _ => (0, ""), fun _ => (0, "")⟩
      true "foo" (Or.inl rfl) (by decide)).2.1⟩

/-- Claim C7: once the version query succeeded, a nonzero exit of the
compile-flags query, or of the link-flags query after compile flags
succeeded, raises `RuntimeError` for every value of `required`. -/
theorem pkgconfig_flag_query_fault
    (env : PkgEnv) (pc : Bool) (name : String) (required : Bool)
    (hpc : pc = true ∨ env.pcVersion.1 = 0)
    (hmv : (env.modversion name).1 = 0) :
    ((env.cflags name).1 ≠ 0 →
      pkgConfigInit env pc name required =
        .error (.runtimeError ("Could not generate cflags for " ++ name ++ "."))) ∧
    ((env.cflags name).1 = 0 → (env.libs name).1 ≠ 0 →
      pkgConfigInit env pc name required =
        .error (.runtimeError ("Could not generate libs for " ++ name ++ "."))) := by
  have hcond : ¬(pc = false ∧ env.pcVersion.1 ≠ 0) := by
    rcases hpc with h1 | h1
    · rw [h1]; simp
    · simp [h1]
  have hmv2 : ¬((env.modversion name).1 ≠ 0) := by simp [hmv]
  constructor
  · intro hc
    unfold pkgConfigInit
    rw [if_neg hcond, if_neg hmv2, if_pos hc]
  · intro hc hl
    have hc2 : ¬((env.cflags name).1 ≠ 0) := by simp [hc]
    unfold pkgConfigInit
    rw [if_neg hcond, if_neg hmv2, if_neg hc2, if_pos hl]

/-- Claim C7, witness: concrete environments where the compile-flags
query, respectively the link-flags query, exits with code 1 after a
successful version query; both raise `RuntimeError` even with
`required = true` or `false`. -/
theorem pkgconfig_flag_query_fault_witness :
    pkgConfigInit ⟨(0, ""), fun _ => (0, "1.0"), fun _ => (1, ""), fun _ => (0, "")⟩
        true "foo" true =
      .error (.runtimeError "Could not generate cflags for foo.") ∧
    pkgConfigInit ⟨(0, ""), fun _ => (0, "1.0"), fun _ => (0, "-I."), fun _ => (1, "")⟩
        true "foo" false =
      .error (.runtimeError "Could not generate libs for foo.") :=
  ⟨(pkgconfig_flag_query_fault
      ⟨(0, ""), fun _ => (0, "1.0"), fun _ => (1, ""), fun _ => (0, "")⟩
      true "foo" true (Or.inl rfl) (by decide)).1 (by decide),
   (pkgconfig_flag_query_fault
      ⟨(0, ""), fun _ => (0, "1.0"), fun _ => (0, "-I."), fun _ => (1, "")⟩
      true "foo" false (Or.inl rfl) (by decide)).2 (by decide) (by decide)⟩

/-- Claim C8: when no line of the version header both starts with the
define directive and names the version macro, the Boost constructor (with
a well-formed modules option) completes without error and reports
`found() = false`. -/
theorem boost_no_version_directive
    (env : BoostEnv) (arg : Option ModulesArg) (reqs : List String)
    (hreq : get_requested arg = .ok reqs)
    (hno : ∀ line ∈ env.versionHeaderLines,
      (pyStartsWith line "#define" && strContains line "BOOST_LIB_VERSION") = false) :
    boostInit env arg = .ok ⟨none, [], [], reqs⟩ ∧
    BoostState.found ⟨none, [], [], reqs⟩ = false := by
  have hv := detect_version_eq_none hno
  constructor
  · simp only [boostInit, hreq, hv]
  · rfl

/-- Claim C8, witness: a version header consisting of one comment line
yields a silent not-found Boost detector for the request `thread`. -/
theorem boost_no_version_directive_witness :
    get_requested (some (.str "thread")) = .ok ["thread"] ∧
    boostInit ⟨["// just a comment"], [("thread", true)], ["libboost_thread.so"]⟩
        (some (.str "thread")) = .ok ⟨none, [], [], ["thread"]⟩ :=
  ⟨rfl,
   (boost_no_version_directive
      ⟨["// just a comment"], [("thread", true)], ["libboost_thread.so"]⟩
      (some (.str "thread")) ["thread"] rfl (by decide)).1⟩
